import Mathlib

set_option autoImplicit false

namespace Aspi

/-!
Shallow embedding of the aspi request-execution engine.

Sources embedded here:
* `src/result.ts` — the `Result` algebra (`ok`/`err` tagged union and its
  projection helpers).  JavaScript `null` is modelled by `Option`; a callback
  that is invoked only for its side effects is modelled by a `Bool` recording
  whether the invocation happened.
* `src/http.ts` — the `httpErrors` status table and `getHttpErrorStatus`.
* `src/request.ts` (the current `Request` class, lines 51–1024) — the retry
  loop `Request.#makeRequest`, the body-schema short circuit fed by
  `Request.bodyJson`, the output-schema validation, the error taxonomy
  (`AspiError` / `CustomError`) and the result-shape projection
  `Request.#mapResponse` together with the `throwable`/`withResult` switches.

The transport (`fetch`) plus the per-strategy response parser are modelled by
an oracle `Nat → FetchOutcome Val` giving the outcome of each attempt: the
call may throw (`exn`, covering both a throwing fetch and a throwing parser),
or produce a response with a status code and a parsed body, where the parsed
body is `Except.error msg` exactly when the JSON parser produced the
`CustomError('jsonParseError', {message})` sentinel of `Request.json`.
Payload values and validator issues are abstract types `Val` and `Issue`.
-/

/-! ### Result algebra (src/result.ts) -/

inductive Result (T E : Type) where
  | ok (value : T)
  | err (error : E)
  deriving DecidableEq, Repr

def isOk {T E : Type} : Result T E → Bool
  | .ok _ => true
  | .err _ => false

def isErr {T E : Type} (result : Result T E) : Bool :=
  !isOk result

def getOrNull {T E : Type} : Result T E → Option T
  | .ok v => some v
  | .err _ => none

def getErrorOrNull {T E : Type} : Result T E → Option E
  | .ok _ => none
  | .err e => some e

/-- `getOrThrow` returns the value or throws the error; the throw is modelled
by `Except.error`. -/
def getOrThrow {T E : Type} : Result T E → Except E T
  | .ok v => .ok v
  | .err e => .error e

/-- Direct-style `catchError(result, tag, fn)` on a `Result` whose error
carries a string tag (`tagOf`).  The second component records whether the
callback `fn` was invoked.  On a matching failure the source returns
`ok(null)`, modelled as `ok none`. -/
def catchError {T E : Type} (result : Result (Option T) E) (tag : String)
    (tagOf : E → String) : Result (Option T) E × Bool :=
  match result with
  | .err e => if tagOf e = tag then (.ok none, true) else (.err e, false)
  | .ok v => (.ok v, false)

/-- Direct-style `catchAllErrors(result, fn)`: invokes the callback on a
failure and returns the original result in both cases.  The second component
records whether the callback was invoked. -/
def catchAllErrors {T E : Type} (result : Result T E) : Result T E × Bool :=
  match result with
  | .ok v => (.ok v, false)
  | .err e => (.err e, true)

/-! ### HTTP status table (src/http.ts) -/

def httpErrors : List (String × Nat) :=
  [("BAD_REQUEST", 400), ("UNAUTHORIZED", 401), ("FORBIDDEN", 403), ("NOT_FOUND", 404),
   ("METHOD_NOT_ALLOWED", 405), ("CONFLICT", 409), ("PAYLOAD_TOO_LARGE", 413),
   ("UNSUPPORTED_MEDIA_TYPE", 415), ("UNPROCESSABLE_ENTITY", 422), ("TOO_MANY_REQUESTS", 429),
   ("INTERNAL_SERVER_ERROR", 500), ("NOT_IMPLEMENTED", 501), ("BAD_GATEWAY", 502),
   ("SERVICE_UNAVAILABLE", 503), ("GATEWAY_TIMEOUT", 504)]

/-- `getHttpErrorStatus(status)`: the key of `httpErrors` whose value is
`status` (`undefined`, i.e. `none`, when the status is not in the table). -/
def getHttpErrorStatus (status : Nat) : Option String :=
  (httpErrors.find? (fun p => p.2 == status)).map (fun p => p.1)

/-- `Response.ok` of the platform fetch: status in the range [200, 300). -/
def statusOk (status : Nat) : Bool :=
  decide (200 ≤ status ∧ status < 300)

/-! ### Result-shape projection (Request.#mapResponse, throwable, withResult) -/

/-- The two private flags `#shouldBeResult` and `#throwOnError`. -/
structure ProjFlags where
  shouldBeResult : Bool
  throwOnError : Bool
  deriving DecidableEq, Repr

/-- Constructor state: `#shouldBeResult = false` and
`#throwOnError = throwOnError || false` from the `RequestOptions`. -/
def initProjFlags (throwOnError : Option Bool) : ProjFlags :=
  ⟨false, throwOnError.getD false⟩

/-- `Request.throwable()`: clears `#shouldBeResult`, sets `#throwOnError`. -/
def throwable (_flags : ProjFlags) : ProjFlags :=
  ⟨false, true⟩

/-- `Request.withResult()`: clears `#throwOnError`, sets `#shouldBeResult`. -/
def withResult (_flags : ProjFlags) : ProjFlags :=
  ⟨true, false⟩

/-- The caller-facing shape produced by `Request.#mapResponse`: the tagged
`Result` itself, a returned value or a raised error (throwing mode), or the
two-slot tuple (pair mode) whose absent slots are `null`. -/
inductive Projected (T E : Type) where
  | result (r : Result T E)
  | value (t : T)
  | raised (e : E)
  | pair (fst : Option T) (snd : Option E)
  deriving DecidableEq, Repr

/-- `Request.#mapResponse`. -/
def mapResponse {T E : Type} (flags : ProjFlags) (value : Result T E) : Projected T E :=
  if flags.shouldBeResult then .result value
  else if flags.throwOnError then
    match getOrThrow value with
    | .ok t => .value t
    | .error e => .raised e
  else if isOk value then .pair (getOrNull value) none
  else .pair none (getErrorOrNull value)

inductive ProjMode where
  | taggedResult
  | throwing
  | pair
  deriving DecidableEq, Repr

/-- The projection mode `#mapResponse` will use for a given flag state. -/
def projMode (flags : ProjFlags) : ProjMode :=
  if flags.shouldBeResult then .taggedResult
  else if flags.throwOnError then .throwing
  else .pair

inductive ModeCall where
  | throwable
  | withResult
  deriving DecidableEq, Repr

def applyModeCall (flags : ProjFlags) : ModeCall → ProjFlags
  | .throwable => throwable flags
  | .withResult => withResult flags

/-- Apply a chain of `throwable()` / `withResult()` calls left to right. -/
def applyModeCalls (flags : ProjFlags) (calls : List ModeCall) : ProjFlags :=
  calls.foldl applyModeCall flags

/-! ### Engine data model (src/request.ts, src/error.ts, src/types.ts) -/

/-- `Request.#makeResponse` output as seen by callbacks: status, canonical
status label, decoded body (possibly `undefined`).  The raw `Response` handle
is omitted as opaque. -/
structure AspiResponseCtx (Val : Type) where
  status : Nat
  statusText : Option String
  responseData : Option Val

/-- One entry of `Request.#customErrorCbs`: a tag and a transform callback. -/
structure ErrorHandler (Val : Type) where
  tag : String
  cb : AspiResponseCtx Val → Val

/-- `AspiRetryConfig`.  `retryDelay` itself is unobservable (the engine only
sleeps); what matters behaviourally is whether it is a function, since a
function delay dereferences `response!` inside the catch block.  `onRetry`
records whether the hook is present. -/
structure RetryConfig (Val : Type) where
  retries : Option Int
  retryDelayIsFn : Bool
  retryOn : Option (List Nat)
  retryWhile : Option (AspiResponseCtx Val → Bool)
  onRetry : Bool

/-- `retries || 1` of `Request.#sanitisedRetryConfig`: absent or `0` becomes
`1`; every other integer (including negative ones) passes through. -/
def sanitisedRetries (retries : Option Int) : Int :=
  match retries with
  | none => 1
  | some n => if n = 0 then 1 else n

/-- `retryOn || []` of `Request.#sanitisedRetryConfig`. -/
def sanitisedRetryOn (retryOn : Option (List Nat)) : List Nat :=
  retryOn.getD []

/-- The execution-relevant state of a `Request` at execution time. -/
structure EngineCfg (Val Issue : Type) where
  handlers : Nat → Option (ErrorHandler Val)
  retry : RetryConfig Val
  schema : Option (Option Val → Except (List Issue) Val)
  bodySchemaIssues : List Issue
  isJson : Bool

/-- Outcome of one attempt: `fetch` plus the response parser.  `exn` covers a
throwing fetch (`received = none`) and a parser that throws after a response
with the given status was received (`received = some status`).  For a
successful parse, `parsed = .ok v`; `parsed = .error msg` is the
`CustomError('jsonParseError', {message: msg})` produced by `Request.json`'s
parser when `response.json()` rejects. -/
inductive FetchOutcome (Val : Type) where
  | exn (received : Option Nat)
  | res (status : Nat) (parsed : Except String Val)

/-- Payload of error values: a handler-callback result, a
`jsonParseError` message, or a validator issue list. -/
inductive ErrData (Val Issue : Type) where
  | val (v : Val)
  | jsonMsg (message : String)
  | issues (issues : List Issue)
  deriving DecidableEq, Repr

/-- The failure side of an execution: `custom` is a `CustomError(tag, data)`;
`aspi` is an `AspiError` whose response field carries the given status and
canonical status text. -/
inductive RunError (Val Issue : Type) where
  | custom (tag : String) (data : ErrData Val Issue)
  | aspi (status : Nat) (statusText : Option String)
  deriving DecidableEq, Repr

/-- The success side: `{data, request, response}` with the opaque request
omitted; `data` is `Option` because `responseData` can be `undefined`. -/
structure OkPayload (Val : Type) where
  data : Option Val
  status : Nat
  deriving DecidableEq, Repr

/-- Observable side-effect counters of one execution. -/
structure ExecStats where
  fetches : Nat
  onRetryCalls : Nat
  handlerCalls : Nat
  deriving DecidableEq, Repr

/-- How the `while` loop of `Request.#makeRequest` ended: an early `return`
of an error, a `break` with the current response and parsed body, exhaustion
of the attempt budget carrying the last stored `response`/`responseData`
(either may still be `undefined`), or an exception reaching the outer catch. -/
inductive LoopExit (Val Issue : Type) where
  | earlyErr (e : RunError Val Issue)
  | broke (status : Nat) (data : Val)
  | exhausted (statusOpt : Option Nat) (dataOpt : Option Val)
  | thrown

/-- The retry trigger for a completed attempt:
`retryOn.includes(status) || retryWhile(request, responseCtx)`. -/
def retryTriggered {Val Issue : Type} (cfg : EngineCfg Val Issue) (status : Nat)
    (data : Val) : Bool :=
  (sanitisedRetryOn cfg.retry.retryOn).contains status ||
    (match cfg.retry.retryWhile with
     | some p => p ⟨status, getHttpErrorStatus status, some data⟩
     | none => false)

/-- The `while (attempts <= retries)` loop of `Request.#makeRequest`,
fuel-indexed: `fuel = retries - attempts + 1`, so `fuel = 0` is the loop
condition failing and an inner `fuel = 0` (after the pattern `fuel + 1`)
means `attempts === retries`.  `statusOpt`/`dataOpt` are the current values
of the `response`/`responseData` variables (`none` = still `undefined`);
dereferencing `response!` while it is `undefined` throws a TypeError that the
outer catch receives, modelled by `.thrown`. -/
def loop {Val Issue : Type} (cfg : EngineCfg Val Issue) (oracle : Nat → FetchOutcome Val) :
    Nat → Nat → Option Nat → Option Val → ExecStats → LoopExit Val Issue × ExecStats
  | 0, _, statusOpt, dataOpt, st => (.exhausted statusOpt dataOpt, st)
  | fuel + 1, attempt, statusOpt, dataOpt, st =>
    let st1 : ExecStats := { st with fetches := st.fetches + 1 }
    match oracle attempt with
    | .exn received =>
      if fuel = 0 then
        (.thrown, st1)
      else
        let statusNow := match received with
          | some s => some s
          | none => statusOpt
        if cfg.retry.retryDelayIsFn && statusNow.isNone then
          (.thrown, st1)
        else if cfg.retry.onRetry then
          if statusNow.isNone then
            (.thrown, st1)
          else
            loop cfg oracle fuel (attempt + 1) statusNow dataOpt
              { st1 with onRetryCalls := st1.onRetryCalls + 1 }
        else
          loop cfg oracle fuel (attempt + 1) statusNow dataOpt st1
    | .res status parsed =>
      match parsed with
      | .error msg => (.earlyErr (.custom "jsonParseError" (.jsonMsg msg)), st1)
      | .ok data =>
        if statusOk status || !retryTriggered cfg status data then
          (.broke status data, st1)
        else
          match cfg.handlers status with
          | some handler =>
            if fuel = 0 then
              (.earlyErr (.custom handler.tag (.val (handler.cb
                  ⟨status, getHttpErrorStatus status, some data⟩))),
               { st1 with handlerCalls := st1.handlerCalls + 1 })
            else
              loop cfg oracle fuel (attempt + 1) (some status) (some data)
                (if cfg.retry.onRetry then
                  { st1 with onRetryCalls := st1.onRetryCalls + 1 }
                 else st1)
          | none =>
            loop cfg oracle fuel (attempt + 1) (some status) (some data)
              (if cfg.retry.onRetry then
                { st1 with onRetryCalls := st1.onRetryCalls + 1 }
               else st1)

/-- Lines 904–952 of `Request.#makeRequest`: the post-loop dispatch on the
last response — handler lookup or generic `AspiError` on a failing status,
output-schema validation (JSON strategy only) or plain success otherwise. -/
def settle {Val Issue : Type} (cfg : EngineCfg Val Issue) (status : Nat)
    (dataOpt : Option Val) (st : ExecStats) :
    Result (OkPayload Val) (RunError Val Issue) × ExecStats :=
  if statusOk status then
    match (if cfg.isJson then cfg.schema else none) with
    | some vfn =>
      match vfn dataOpt with
      | .error issues => (.err (.custom "parseError" (.issues issues)), st)
      | .ok v => (.ok ⟨some v, status⟩, st)
    | none => (.ok ⟨dataOpt, status⟩, st)
  else
    match cfg.handlers status with
    | some handler =>
      (.err (.custom handler.tag (.val (handler.cb
          ⟨status, getHttpErrorStatus status, dataOpt⟩))),
       { st with handlerCalls := st.handlerCalls + 1 })
    | none => (.err (.aspi status (getHttpErrorStatus status)), st)

/-- Lines 953–983 of `Request.#makeRequest`: the outer catch.  A registered
handler for status 500 takes precedence; otherwise an `AspiError` with the
synthesized `{status: 500, statusText: 'INTERNAL_SERVER_ERROR'}` response. -/
def outerCatch {Val Issue : Type} (cfg : EngineCfg Val Issue) (st : ExecStats) :
    Result (OkPayload Val) (RunError Val Issue) × ExecStats :=
  match cfg.handlers 500 with
  | some handler =>
    (.err (.custom handler.tag (.val (handler.cb ⟨500, some "INTERNAL_SERVER_ERROR", none⟩))),
     { st with handlerCalls := st.handlerCalls + 1 })
  | none => (.err (.aspi 500 (some "INTERNAL_SERVER_ERROR")), st)

/-- Routing a loop exit to the post-loop code or the outer catch.  Exhaustion
with `response` still `undefined` hits `response!.ok` and throws into the
outer catch. -/
def finish {Val Issue : Type} (cfg : EngineCfg Val Issue) :
    LoopExit Val Issue × ExecStats →
      Result (OkPayload Val) (RunError Val Issue) × ExecStats
  | (.earlyErr e, st) => (.err e, st)
  | (.thrown, st) => outerCatch cfg st
  | (.broke status data, st) => settle cfg status (some data) st
  | (.exhausted (some status) dataOpt, st) => settle cfg status dataOpt st
  | (.exhausted none _, st) => outerCatch cfg st

/-- `Request.#makeRequest`: the body-schema short circuit, then the retry
loop starting at `attempts = 1` with the sanitised attempt budget. -/
def makeRequest {Val Issue : Type} (cfg : EngineCfg Val Issue)
    (oracle : Nat → FetchOutcome Val) :
    Result (OkPayload Val) (RunError Val Issue) × ExecStats :=
  if cfg.bodySchemaIssues.isEmpty then
    finish cfg (loop cfg oracle (sanitisedRetries cfg.retry.retries).toNat 1 none none ⟨0, 0, 0⟩)
  else
    (.err (.custom "parseError" (.issues cfg.bodySchemaIssues)), ⟨0, 0, 0⟩)

/-- `Request.bodyJson` run against a pre-registered body schema: the issue
list stored into `#bodySchemaIssues` (empty when there is no schema or the
validation succeeds). -/
def bodyJsonIssues {Val Issue : Type}
    (bodySchema : Option (Val → Except (List Issue) Val)) (body : Val) : List Issue :=
  match bodySchema with
  | some vfn =>
    match vfn body with
    | .error issues => issues
    | .ok _ => []
  | none => []

/-- The shape of an attempt outcome that makes the loop continue to the next
attempt: a response that parsed, has a failing status, and triggers a retry. -/
def continuesRes {Val Issue : Type} (cfg : EngineCfg Val Issue)
    (o : FetchOutcome Val) : Prop :=
  ∃ s d, o = .res s (.ok d) ∧ statusOk s = false ∧ retryTriggered cfg s d = true

/-! ### Theorems -/

theorem loop_zero {Val Issue : Type} (cfg : EngineCfg Val Issue)
    (oracle : Nat → FetchOutcome Val) (a : Nat) (sOpt : Option Nat) (dOpt : Option Val)
    (st : ExecStats) :
    loop cfg oracle 0 a sOpt dOpt st = (.exhausted sOpt dOpt, st) := rfl

/-- One loop iteration on a parsed failing response that triggers a retry
and does not hit the terminal handler dispatch: the loop continues with the
attempt counter advanced, the response stored, the fetch counter bumped and
the onRetry hook (if present) fired. -/
theorem loop_step_continue {Val Issue : Type} (cfg : EngineCfg Val Issue)
    (oracle : Nat → FetchOutcome Val) (f f' a : Nat) (sOpt : Option Nat) (dOpt : Option Val)
    (st : ExecStats) (s : Nat) (d : Val)
    (hf : f = f' + 1)
    (hnd : cfg.handlers s = none ∨ f' ≠ 0)
    (h1 : oracle a = .res s (.ok d))
    (hok : statusOk s = false)
    (htrig : retryTriggered cfg s d = true) :
    loop cfg oracle f a sOpt dOpt st =
      loop cfg oracle f' (a + 1) (some s) (some d)
        (if cfg.retry.onRetry then
          (⟨st.fetches + 1, st.onRetryCalls + 1, st.handlerCalls⟩ : ExecStats)
         else ⟨st.fetches + 1, st.onRetryCalls, st.handlerCalls⟩) := by
  subst hf
  rcases hnd with hh | hf'
  · simp [loop, h1, hok, htrig, hh]
  · cases hh : cfg.handlers s with
    | some handler => simp [loop, h1, hok, htrig, hh, hf']
    | none => simp [loop, h1, hok, htrig, hh]

/-- One loop iteration on a parsed response that does not trigger a retry
(or is 2xx): the loop breaks with the current response. -/
theorem loop_step_break {Val Issue : Type} (cfg : EngineCfg Val Issue)
    (oracle : Nat → FetchOutcome Val) (f f' a : Nat) (sOpt : Option Nat) (dOpt : Option Val)
    (st : ExecStats) (s : Nat) (d : Val)
    (hf : f = f' + 1)
    (h1 : oracle a = .res s (.ok d))
    (hbreak : (statusOk s || !retryTriggered cfg s d) = true) :
    loop cfg oracle f a sOpt dOpt st =
      (.broke s d, ⟨st.fetches + 1, st.onRetryCalls, st.handlerCalls⟩) := by
  subst hf
  simp [loop, h1, hbreak]

/-- The terminal loop iteration (`attempts === retries`) on a failing,
retry-triggering response whose status has a registered handler: the handler
is invoked once and its CustomError is returned from inside the loop. -/
theorem loop_step_dispatch {Val Issue : Type} (cfg : EngineCfg Val Issue)
    (oracle : Nat → FetchOutcome Val) (a : Nat) (sOpt : Option Nat) (dOpt : Option Val)
    (st : ExecStats) (s : Nat) (d : Val) (handler : ErrorHandler Val)
    (h1 : oracle a = .res s (.ok d))
    (hok : statusOk s = false)
    (htrig : retryTriggered cfg s d = true)
    (hh : cfg.handlers s = some handler) :
    loop cfg oracle 1 a sOpt dOpt st =
      (.earlyErr (.custom handler.tag (.val (handler.cb
          ⟨s, getHttpErrorStatus s, some d⟩))),
       ⟨st.fetches + 1, st.onRetryCalls, st.handlerCalls + 1⟩) := by
  simp [loop, h1, hok, htrig, hh]

/-- A run of `j` continuing attempts advances the loop by `j` iterations,
adding `j` fetches, `j` onRetry firings (when the hook is present) and no
handler invocations. -/
theorem loop_prefix {Val Issue : Type} (cfg : EngineCfg Val Issue)
    (oracle : Nat → FetchOutcome Val) (S : Nat → Nat) (D : Nat → Val) :
    ∀ (j f a : Nat) (sOpt : Option Nat) (dOpt : Option Val) (st : ExecStats),
      j + 1 ≤ f →
      (∀ k, a ≤ k → k < a + j →
        oracle k = .res (S k) (.ok (D k)) ∧ statusOk (S k) = false ∧
          retryTriggered cfg (S k) (D k) = true) →
      ∃ sOpt' dOpt' st',
        loop cfg oracle f a sOpt dOpt st =
          loop cfg oracle (f - j) (a + j) sOpt' dOpt' st' ∧
        st'.fetches = st.fetches + j ∧
        st'.onRetryCalls = st.onRetryCalls + (if cfg.retry.onRetry then j else 0) ∧
        st'.handlerCalls = st.handlerCalls := by
  intro j
  induction j with
  | zero =>
    intro f a sOpt dOpt st _ _
    exact ⟨sOpt, dOpt, st, by simp, by simp, by cases cfg.retry.onRetry <;> simp, rfl⟩
  | succ n ih =>
    intro f a sOpt dOpt st hf hk
    obtain ⟨f', rfl⟩ : ∃ f', f = f' + 1 := ⟨f - 1, by omega⟩
    obtain ⟨h1, hok, htrig⟩ := hk a (Nat.le_refl a) (by omega)
    have hstep := loop_step_continue cfg oracle (f' + 1) f' a sOpt dOpt st (S a) (D a) rfl
      (Or.inr (by omega)) h1 hok htrig
    obtain ⟨s', d', st', heq, hfe, ho, hhc⟩ := ih f' (a + 1) (some (S a)) (some (D a))
      (if cfg.retry.onRetry then
        (⟨st.fetches + 1, st.onRetryCalls + 1, st.handlerCalls⟩ : ExecStats)
       else ⟨st.fetches + 1, st.onRetryCalls, st.handlerCalls⟩)
      (by omega) (fun k hk1 hk2 => hk k (by omega) (by omega))
    refine ⟨s', d', st', ?_, ?_, ?_, ?_⟩
    · have e1 : f' + 1 - (n + 1) = f' - n := by omega
      have e2 : a + (n + 1) = a + 1 + n := by omega
      rw [e1, e2, hstep]
      exact heq
    · cases hr : cfg.retry.onRetry <;> simp [hr] at hfe ⊢ <;> omega
    · cases hr : cfg.retry.onRetry <;> simp [hr] at ho ⊢ <;> omega
    · cases hr : cfg.retry.onRetry <;> simp [hr] at hhc ⊢ <;> omega

/-- One loop iteration on a throwing attempt that is not the final allowed
one: either a `response!` dereference crashes (propagating to the outer
catch) or the loop swallows the exception and continues. -/
theorem loop_step_exn {Val Issue : Type} (cfg : EngineCfg Val Issue)
    (oracle : Nat → FetchOutcome Val) (f f' a : Nat) (sOpt : Option Nat) (dOpt : Option Val)
    (st : ExecStats) (rc : Option Nat)
    (hf : f = f' + 1)
    (h1 : oracle a = .exn rc) :
    loop cfg oracle f a sOpt dOpt st =
      (.thrown, ⟨st.fetches + 1, st.onRetryCalls, st.handlerCalls⟩) ∨
    ∃ sN stB, loop cfg oracle f a sOpt dOpt st = loop cfg oracle f' (a + 1) sN dOpt stB := by
  subst hf
  cases rc <;>
    · simp only [loop, h1]
      repeat' split
      all_goals first
        | exact Or.inl rfl
        | exact Or.inr ⟨_, _, rfl⟩

/-- If every attempt before the final one either continues (failing,
retry-triggering response) or throws, and the final allowed attempt throws,
the loop ends in the outer catch. -/
theorem loop_exn_thrown {Val Issue : Type} (cfg : EngineCfg Val Issue)
    (oracle : Nat → FetchOutcome Val) :
    ∀ (f a : Nat) (sOpt : Option Nat) (dOpt : Option Val) (st : ExecStats),
      1 ≤ f →
      (∀ k, a ≤ k → k + 1 < a + f → continuesRes cfg (oracle k) ∨ ∃ rc, oracle k = .exn rc) →
      (∃ rc, oracle (a + f - 1) = .exn rc) →
      (loop cfg oracle f a sOpt dOpt st).1 = .thrown := by
  intro f
  induction f with
  | zero => intro a sOpt dOpt st h; omega
  | succ f' ih =>
    intro a sOpt dOpt st _ hmid hlast
    cases f' with
    | zero =>
      obtain ⟨rc, hrc⟩ := hlast
      rw [show a + 1 - 1 = a from by omega] at hrc
      simp [loop, hrc]
    | succ g =>
      have hrec : ∀ (sO : Option Nat) (dO : Option Val) (stB : ExecStats),
          (loop cfg oracle (g + 1) (a + 1) sO dO stB).1 = .thrown := by
        intro sO dO stB
        refine ih (a + 1) sO dO stB (by omega)
          (fun k hk1 hk2 => hmid k (by omega) (by omega)) ?_
        obtain ⟨rc, hrc⟩ := hlast
        exact ⟨rc, by rw [show a + 1 + (g + 1) - 1 = a + (g + 1 + 1) - 1 from by omega]; exact hrc⟩
      rcases hmid a (Nat.le_refl a) (by omega) with hres | ⟨rc, hrc⟩
      · obtain ⟨s, d, h1, hok, htrig⟩ := hres
        rw [loop_step_continue cfg oracle (g + 1 + 1) (g + 1) a sOpt dOpt st s d rfl
          (Or.inr (by omega)) h1 hok htrig]
        exact hrec _ _ _
      · rcases loop_step_exn cfg oracle (g + 1 + 1) (g + 1) a sOpt dOpt st rc rfl hrc with
          h | ⟨sN, stB, h⟩
        · rw [h]
        · rw [h]
          exact hrec _ _ _

theorem loop_fetches_le {Val Issue : Type} (cfg : EngineCfg Val Issue)
    (oracle : Nat → FetchOutcome Val) :
    ∀ (f a : Nat) (sOpt : Option Nat) (dOpt : Option Val) (st : ExecStats),
      st.fetches ≤ (loop cfg oracle f a sOpt dOpt st).2.fetches := by
  intro f
  induction f with
  | zero => intro a sOpt dOpt st; exact Nat.le_refl _
  | succ f' ih =>
    intro a sOpt dOpt st
    cases h : oracle a with
    | exn received =>
      simp only [loop, h]
      cases received <;> (repeat' split) <;> first
        | exact Nat.le_succ _
        | (refine Nat.le_trans ?_ (ih _ _ _ _); exact Nat.le_succ _)
    | res status parsed =>
      simp only [loop, h]
      cases parsed <;> (repeat' split) <;> first
        | exact Nat.le_succ _
        | (refine Nat.le_trans ?_ (ih _ _ _ _); exact Nat.le_succ _)

theorem loop_fetches_pos {Val Issue : Type} (cfg : EngineCfg Val Issue)
    (oracle : Nat → FetchOutcome Val) (f a : Nat) (sOpt : Option Nat) (dOpt : Option Val)
    (st : ExecStats) (hf : 1 ≤ f) :
    st.fetches + 1 ≤ (loop cfg oracle f a sOpt dOpt st).2.fetches := by
  obtain ⟨f', rfl⟩ : ∃ f', f = f' + 1 := ⟨f - 1, by omega⟩
  cases h : oracle a with
  | exn received =>
    simp only [loop, h]
    cases received <;> (repeat' split) <;> first
      | exact Nat.le_refl _
      | (refine Nat.le_trans ?_ (loop_fetches_le cfg oracle _ _ _ _ _); exact Nat.le_refl _)
  | res status parsed =>
    simp only [loop, h]
    cases parsed <;> (repeat' split) <;> first
      | exact Nat.le_refl _
      | (refine Nat.le_trans ?_ (loop_fetches_le cfg oracle _ _ _ _ _); exact Nat.le_refl _)

theorem settle_fetches {Val Issue : Type} (cfg : EngineCfg Val Issue) (status : Nat)
    (dataOpt : Option Val) (st : ExecStats) :
    (settle cfg status dataOpt st).2.fetches = st.fetches := by
  unfold settle
  repeat' split
  all_goals rfl

theorem outerCatch_fetches {Val Issue : Type} (cfg : EngineCfg Val Issue) (st : ExecStats) :
    (outerCatch cfg st).2.fetches = st.fetches := by
  unfold outerCatch
  split
  all_goals rfl

theorem finish_fetches {Val Issue : Type} (cfg : EngineCfg Val Issue)
    (p : LoopExit Val Issue × ExecStats) :
    (finish cfg p).2.fetches = p.2.fetches := by
  obtain ⟨exit, st⟩ := p
  cases exit with
  | earlyErr e => rfl
  | thrown => exact outerCatch_fetches cfg st
  | broke status data => exact settle_fetches cfg status (some data) st
  | exhausted sOpt dOpt =>
    cases sOpt with
    | none => exact outerCatch_fetches cfg st
    | some s => exact settle_fetches cfg s dOpt st

/-- C1 (amended): with a retry policy of `retries = N ≥ 1`, an onRetry hook
configured, every attempt returning a parsed failing status in the trigger
set, and no handler registered for those statuses, the engine performs
exactly N transport calls but fires the onRetry hook exactly N times — it
also fires after the terminal attempt — and invokes no error handler,
ending in the generic AspiError of the last response. -/
theorem C1_retry_and_onRetry_counts (Val Issue : Type) (cfg : EngineCfg Val Issue)
    (oracle : Nat → FetchOutcome Val) (S : Nat → Nat) (D : Nat → Val) (N : Nat)
    (hbody : cfg.bodySchemaIssues = [])
    (hret : cfg.retry.retries = some (N : Int))
    (hN : 1 ≤ N)
    (honRetry : cfg.retry.onRetry = true)
    (hk : ∀ k, 1 ≤ k → k ≤ N →
      oracle k = .res (S k) (.ok (D k)) ∧ statusOk (S k) = false ∧
        retryTriggered cfg (S k) (D k) = true ∧ cfg.handlers (S k) = none) :
    (makeRequest cfg oracle).1 = .err (.aspi (S N) (getHttpErrorStatus (S N))) ∧
    (makeRequest cfg oracle).2 = ⟨N, N, 0⟩ := by
  have hbe : cfg.bodySchemaIssues.isEmpty = true := by simp [hbody]
  have hNe : ((N : Nat) : Int) ≠ 0 := by omega
  have hsan : (sanitisedRetries cfg.retry.retries).toNat = N := by
    rw [hret]
    simp only [sanitisedRetries]
    rw [if_neg hNe]
    omega
  obtain ⟨s', d', st', heq, hfe, ho, hhc⟩ := loop_prefix cfg oracle S D (N - 1) N 1
    none none ⟨0, 0, 0⟩ (by omega)
    (fun k hk1 hk2 => by
      obtain ⟨h1, h2, h3, _⟩ := hk k hk1 (by omega)
      exact ⟨h1, h2, h3⟩)
  rw [show 1 + (N - 1) = N from by omega] at heq
  obtain ⟨h1, hok, htrig, hnone⟩ := hk N (by omega) (Nat.le_refl N)
  have hstep := loop_step_continue cfg oracle (N - (N - 1)) 0 N s' d' st' (S N) (D N)
    (by omega) (Or.inl hnone) h1 hok htrig
  have hfinal : makeRequest cfg oracle =
      (.err (.aspi (S N) (getHttpErrorStatus (S N))),
       ⟨st'.fetches + 1, st'.onRetryCalls + 1, st'.handlerCalls⟩) := by
    unfold makeRequest
    rw [if_pos hbe, hsan, heq, hstep, honRetry]
    simp [loop_zero, finish, settle, hok, hnone]
  rw [hfinal]
  refine ⟨rfl, ?_⟩
  simp [honRetry] at hfe ho hhc
  simp only [ExecStats.mk.injEq]
  omega

theorem C1_retry_and_onRetry_counts_witness :
    (@makeRequest Nat Nat
      { handlers := fun _ => none,
        retry := { retries := some 2, retryDelayIsFn := false, retryOn := some [500],
                   retryWhile := none, onRetry := true },
        schema := none, bodySchemaIssues := [], isJson := false }
      (fun _ => FetchOutcome.res 500 (.ok (0 : Nat)))).2 = ⟨2, 2, 0⟩ :=
  (C1_retry_and_onRetry_counts Nat Nat
    { handlers := fun _ => none,
      retry := { retries := some 2, retryDelayIsFn := false, retryOn := some [500],
                 retryWhile := none, onRetry := true },
      schema := none, bodySchemaIssues := [], isJson := false }
    (fun _ => FetchOutcome.res 500 (.ok (0 : Nat)))
    (fun _ => 500) (fun _ => 0) 2
    rfl rfl (by decide) rfl (fun _ _ _ => ⟨rfl, rfl, rfl, rfl⟩)).2

/-- C2 (amended): when the final allowed attempt throws a transport
exception — every earlier attempt having either continued via a failing
triggered response or thrown — the execution fails, and if no handler is
registered for status 500 the failure is the AspiError with the synthesized
status 500 / INTERNAL_SERVER_ERROR; a registered 500 handler would produce
that handler's CustomError instead. -/
theorem C2_transport_exception_terminal (Val Issue : Type) (cfg : EngineCfg Val Issue)
    (oracle : Nat → FetchOutcome Val) (n : Nat)
    (hbody : cfg.bodySchemaIssues = [])
    (h500 : cfg.handlers 500 = none)
    (hn : (sanitisedRetries cfg.retry.retries).toNat = n)
    (hn1 : 1 ≤ n)
    (hmid : ∀ k, 1 ≤ k → k < n → continuesRes cfg (oracle k) ∨ ∃ rc, oracle k = .exn rc)
    (hlast : ∃ rc, oracle n = .exn rc) :
    (makeRequest cfg oracle).1 = .err (.aspi 500 (some "INTERNAL_SERVER_ERROR")) := by
  have hbe : cfg.bodySchemaIssues.isEmpty = true := by simp [hbody]
  have hthrown := loop_exn_thrown cfg oracle n 1 none none ⟨0, 0, 0⟩ hn1
    (fun k hk1 hk2 => hmid k hk1 (by omega))
    (by rw [show 1 + n - 1 = n from by omega]; exact hlast)
  unfold makeRequest
  rw [if_pos hbe, hn]
  rcases hE : loop cfg oracle n 1 none none ⟨0, 0, 0⟩ with ⟨exit, st⟩
  rw [hE] at hthrown
  have hx : exit = .thrown := hthrown
  subst hx
  simp [finish, outerCatch, h500]

theorem C2_transport_exception_terminal_witness :
    (@makeRequest Nat Nat
      { handlers := fun _ => none,
        retry := { retries := some 2, retryDelayIsFn := false, retryOn := some [500],
                   retryWhile := none, onRetry := false },
        schema := none, bodySchemaIssues := [], isJson := false }
      (fun k => if k = 2 then FetchOutcome.exn none else .res 500 (.ok (0 : Nat)))).1 =
    .err (.aspi 500 (some "INTERNAL_SERVER_ERROR")) :=
  C2_transport_exception_terminal Nat Nat _ _ 2 rfl rfl rfl (by decide)
    (fun k hk1 hk2 => Or.inl ⟨500, 0, by
      have hk : k = 1 := by omega
      subst hk
      exact ⟨rfl, rfl, rfl⟩⟩)
    ⟨none, rfl⟩

/-- C3 (amended): when the terminal attempt yields a failing response with
status `s` *whose body decode succeeded* and a handler is registered for
`s`, the outcome is that handler's CustomError with its registered tag in
all three projection modes, and the handler's transform runs exactly once
for the whole execution.  (A decode failure on the terminal response instead
yields the `jsonParseError` DecodeError; see the counterexample.) -/
theorem C3_handler_precedence (Val Issue : Type) (cfg : EngineCfg Val Issue)
    (oracle : Nat → FetchOutcome Val) (S : Nat → Nat) (D : Nat → Val)
    (t N s : Nat) (d : Val) (handler : ErrorHandler Val)
    (hbody : cfg.bodySchemaIssues = [])
    (hret : cfg.retry.retries = some (N : Int))
    (ht1 : 1 ≤ t) (htN : t ≤ N)
    (hpre : ∀ k, 1 ≤ k → k < t →
      oracle k = .res (S k) (.ok (D k)) ∧ statusOk (S k) = false ∧
        retryTriggered cfg (S k) (D k) = true)
    (hterm : oracle t = .res s (.ok d))
    (hfail : statusOk s = false)
    (hstop : t = N ∨ retryTriggered cfg s d = false)
    (hh : cfg.handlers s = some handler) :
    (makeRequest cfg oracle).1 =
      .err (.custom handler.tag (.val (handler.cb ⟨s, getHttpErrorStatus s, some d⟩))) ∧
    (makeRequest cfg oracle).2.handlerCalls = 1 ∧
    mapResponse ⟨true, false⟩ (makeRequest cfg oracle).1 =
      .result (.err (.custom handler.tag (.val (handler.cb ⟨s, getHttpErrorStatus s, some d⟩)))) ∧
    mapResponse ⟨false, true⟩ (makeRequest cfg oracle).1 =
      .raised (.custom handler.tag (.val (handler.cb ⟨s, getHttpErrorStatus s, some d⟩))) ∧
    mapResponse ⟨false, false⟩ (makeRequest cfg oracle).1 =
      .pair none (some (.custom handler.tag (.val (handler.cb ⟨s, getHttpErrorStatus s, some d⟩)))) := by
  have hbe : cfg.bodySchemaIssues.isEmpty = true := by simp [hbody]
  have hNe : ((N : Nat) : Int) ≠ 0 := by omega
  have hsan : (sanitisedRetries cfg.retry.retries).toNat = N := by
    rw [hret]
    simp only [sanitisedRetries]
    rw [if_neg hNe]
    omega
  obtain ⟨s', d', st', heq, hfe, ho, hhc⟩ := loop_prefix cfg oracle S D (t - 1) N 1
    none none ⟨0, 0, 0⟩ (by omega) (fun k hk1 hk2 => hpre k hk1 (by omega))
  rw [show 1 + (t - 1) = t from by omega] at heq
  have hkey : ∃ stF : ExecStats,
      makeRequest cfg oracle =
        (.err (.custom handler.tag (.val (handler.cb ⟨s, getHttpErrorStatus s, some d⟩))), stF) ∧
      stF.handlerCalls = 1 := by
    cases htr : retryTriggered cfg s d with
    | false =>
      have hbr := loop_step_break cfg oracle (N - (t - 1)) (N - (t - 1) - 1) t s' d' st' s d
        (by omega) hterm (by simp [hfail, htr])
      refine ⟨⟨st'.fetches + 1, st'.onRetryCalls, st'.handlerCalls + 1⟩, ?_,
        by show st'.handlerCalls + 1 = 1; simp at hhc; omega⟩
      unfold makeRequest
      rw [if_pos hbe, hsan, heq, hbr]
      simp [finish, settle, hfail, hh]
    | true =>
      have hEq : t = N := by
        rcases hstop with h | h
        · exact h
        · rw [htr] at h; cases h
      have hfuel : N - (t - 1) = 1 := by omega
      have hdisp := loop_step_dispatch cfg oracle t s' d' st' s d handler hterm hfail htr hh
      refine ⟨⟨st'.fetches + 1, st'.onRetryCalls, st'.handlerCalls + 1⟩, ?_,
        by show st'.handlerCalls + 1 = 1; simp at hhc; omega⟩
      unfold makeRequest
      rw [if_pos hbe, hsan, heq, hfuel, hdisp]
      rfl
  obtain ⟨stF, hmk, hF⟩ := hkey
  rw [hmk]
  exact ⟨rfl, hF, rfl, rfl, rfl⟩

theorem C3_handler_precedence_witness :
    (@makeRequest Nat Nat
      { handlers := fun s => if s = 404 then some ⟨"notFoundError", fun _ => (5 : Nat)⟩ else none,
        retry := { retries := some 1, retryDelayIsFn := false, retryOn := none,
                   retryWhile := none, onRetry := false },
        schema := none, bodySchemaIssues := [], isJson := true }
      (fun _ => FetchOutcome.res 404 (.ok (99 : Nat)))).1 =
      .err (.custom "notFoundError" (.val 5)) ∧
    (@makeRequest Nat Nat
      { handlers := fun s => if s = 404 then some ⟨"notFoundError", fun _ => (5 : Nat)⟩ else none,
        retry := { retries := some 1, retryDelayIsFn := false, retryOn := none,
                   retryWhile := none, onRetry := false },
        schema := none, bodySchemaIssues := [], isJson := true }
      (fun _ => FetchOutcome.res 404 (.ok (99 : Nat)))).2.handlerCalls = 1 := by
  have h := C3_handler_precedence Nat Nat
    { handlers := fun s => if s = 404 then some ⟨"notFoundError", fun _ => (5 : Nat)⟩ else none,
      retry := { retries := some 1, retryDelayIsFn := false, retryOn := none,
                 retryWhile := none, onRetry := false },
      schema := none, bodySchemaIssues := [], isJson := true }
    (fun _ => FetchOutcome.res 404 (.ok (99 : Nat)))
    (fun _ => 404) (fun _ => 99) 1 1 404 99 ⟨"notFoundError", fun _ => (5 : Nat)⟩
    rfl rfl (by decide) (by decide)
    (fun k hk1 hk2 => absurd hk2 (by omega))
    rfl rfl (Or.inl rfl) rfl
  exact ⟨h.1, h.2.1⟩

/-- C8: under the JSON strategy, when the terminal response is 2xx with a
decoded body: a registered output schema whose validation fails yields the
terminal `parseError` DecodeError carrying the issue list (a tag distinct
from the JSON-decode tag `jsonParseError`); successful validation yields a
Success with the schema-narrowed value; no schema yields a Success with the
raw decoded value. -/
theorem C8_output_schema_validation (Val Issue : Type) (cfg : EngineCfg Val Issue)
    (oracle : Nat → FetchOutcome Val) (S : Nat → Nat) (D : Nat → Val)
    (t N s : Nat) (d : Val)
    (hbody : cfg.bodySchemaIssues = [])
    (hjson : cfg.isJson = true)
    (hret : cfg.retry.retries = some (N : Int))
    (ht1 : 1 ≤ t) (htN : t ≤ N)
    (hpre : ∀ k, 1 ≤ k → k < t →
      oracle k = .res (S k) (.ok (D k)) ∧ statusOk (S k) = false ∧
        retryTriggered cfg (S k) (D k) = true)
    (hterm : oracle t = .res s (.ok d))
    (hok : statusOk s = true) :
    (∀ vfn issues, cfg.schema = some vfn → vfn (some d) = .error issues →
      (makeRequest cfg oracle).1 = .err (.custom "parseError" (.issues issues))) ∧
    (∀ vfn v, cfg.schema = some vfn → vfn (some d) = .ok v →
      (makeRequest cfg oracle).1 = .ok ⟨some v, s⟩) ∧
    (cfg.schema = none → (makeRequest cfg oracle).1 = .ok ⟨some d, s⟩) ∧
    "parseError" ≠ "jsonParseError" := by
  have hbe : cfg.bodySchemaIssues.isEmpty = true := by simp [hbody]
  have hNe : ((N : Nat) : Int) ≠ 0 := by omega
  have hsan : (sanitisedRetries cfg.retry.retries).toNat = N := by
    rw [hret]
    simp only [sanitisedRetries]
    rw [if_neg hNe]
    omega
  obtain ⟨s', d', st', heq, _, _, _⟩ := loop_prefix cfg oracle S D (t - 1) N 1
    none none ⟨0, 0, 0⟩ (by omega) (fun k hk1 hk2 => hpre k hk1 (by omega))
  rw [show 1 + (t - 1) = t from by omega] at heq
  have hbr := loop_step_break cfg oracle (N - (t - 1)) (N - (t - 1) - 1) t s' d' st' s d
    (by omega) hterm (by simp [hok])
  have hrun : makeRequest cfg oracle =
      settle cfg s (some d) ⟨st'.fetches + 1, st'.onRetryCalls, st'.handlerCalls⟩ := by
    unfold makeRequest
    rw [if_pos hbe, hsan, heq, hbr]
    rfl
  refine ⟨?_, ?_, ?_, by decide⟩
  · intro vfn issues hs hv
    rw [hrun]
    simp [settle, hok, hjson, hs, hv]
  · intro vfn v hs hv
    rw [hrun]
    simp [settle, hok, hjson, hs, hv]
  · intro hs
    rw [hrun]
    simp [settle, hok, hjson, hs]

theorem C8_output_schema_validation_witness :
    (@makeRequest Nat Nat
      { handlers := fun _ => none,
        retry := { retries := some 1, retryDelayIsFn := false, retryOn := none,
                   retryWhile := none, onRetry := false },
        schema := some (fun o => match o with
          | some n => Except.ok n
          | none => Except.error [0]),
        bodySchemaIssues := [], isJson := true }
      (fun _ => FetchOutcome.res 200 (.ok (1 : Nat)))).1 = .ok ⟨some 1, 200⟩ :=
  (C8_output_schema_validation Nat Nat
    { handlers := fun _ => none,
      retry := { retries := some 1, retryDelayIsFn := false, retryOn := none,
                 retryWhile := none, onRetry := false },
      schema := some (fun o => match o with
        | some n => Except.ok n
        | none => Except.error [0]),
      bodySchemaIssues := [], isJson := true }
    (fun _ => FetchOutcome.res 200 (.ok (1 : Nat)))
    (fun _ => 200) (fun _ => 1) 1 1 200 1
    rfl rfl rfl (by decide) (by decide)
    (fun k hk1 hk2 => absurd hk2 (by omega))
    rfl rfl).2.1
    (fun o => match o with
      | some n => Except.ok n
      | none => Except.error [0]) 1 rfl rfl

/-- C9 (amended): `#sanitisedRetryConfig` coerces a falsy configured retries
value (absent or `0`) to `1`, so with an absent or nonnegative configured
retries every execution that reaches the network loop performs at least one
transport call, and `retries: 0` behaves identically to no retry policy.
(A negative configured retries passes through and yields zero transport
calls; see the counterexample.) -/
theorem C9_sanitised_retries (Val Issue : Type) (cfg : EngineCfg Val Issue)
    (oracle : Nat → FetchOutcome Val)
    (hbody : cfg.bodySchemaIssues = [])
    (hr : cfg.retry.retries = none ∨ ∃ r, cfg.retry.retries = some r ∧ 0 ≤ r) :
    sanitisedRetries none = 1 ∧ sanitisedRetries (some 0) = 1 ∧
    1 ≤ (makeRequest cfg oracle).2.fetches ∧
    makeRequest { cfg with retry := { cfg.retry with retries := some 0 } } oracle =
      makeRequest { cfg with retry := { cfg.retry with retries := none } } oracle := by
  have hbe : cfg.bodySchemaIssues.isEmpty = true := by simp [hbody]
  refine ⟨rfl, rfl, ?_, rfl⟩
  have hf : 1 ≤ (sanitisedRetries cfg.retry.retries).toNat := by
    rcases hr with h | ⟨r, h, hr0⟩
    · rw [h]; decide
    · rw [h]
      simp only [sanitisedRetries]
      split <;> omega
  unfold makeRequest
  rw [if_pos hbe, finish_fetches]
  have h := loop_fetches_pos cfg oracle _ 1 none none ⟨0, 0, 0⟩ hf
  simpa using h

theorem C9_sanitised_retries_witness :
    1 ≤ (@makeRequest Nat Nat
      { handlers := fun _ => none,
        retry := { retries := none, retryDelayIsFn := false, retryOn := none,
                   retryWhile := none, onRetry := false },
        schema := none, bodySchemaIssues := [], isJson := false }
      (fun _ => FetchOutcome.res 200 (.ok (0 : Nat)))).2.fetches :=
  (C9_sanitised_retries Nat Nat _ _ rfl (Or.inl rfl)).2.2.1

/-- C6: for every Outcome, the pair projection fills exactly one slot
(the other is `null`); the throwing projection returns the same payload pair
mode puts in slot 0 on Success, and raises the same value pair mode puts in
slot 1 on Failure. -/
theorem C6_projection_equivalence (T E : Type) (r : Result T E) :
    (∀ t, r = .ok t →
      mapResponse ⟨false, false⟩ r = .pair (some t) none ∧
      mapResponse ⟨false, true⟩ r = .value t) ∧
    (∀ e, r = .err e →
      mapResponse ⟨false, false⟩ r = .pair none (some e) ∧
      mapResponse ⟨false, true⟩ r = .raised e) := by
  constructor <;> rintro x rfl <;> exact ⟨rfl, rfl⟩

theorem C6_projection_equivalence_witness :
    mapResponse (⟨false, false⟩ : ProjFlags) (Result.ok (E := Nat) (5 : Nat)) =
      .pair (some 5) none ∧
    mapResponse (⟨false, true⟩ : ProjFlags) (Result.ok (E := Nat) (5 : Nat)) = .value 5 :=
  (C6_projection_equivalence Nat Nat (Result.ok 5)).1 5 rfl

/-- C7: after any chain of `throwable()` / `withResult()` calls the
projection mode is decided by the most recent call (each clears the other's
flag), and a request constructed without a `throwOnError` option and with no
such call uses the pair projection. -/
theorem C7_mode_last_call_wins :
    (∀ (f : ProjFlags) (l : List ModeCall) (c : ModeCall),
      projMode (applyModeCalls f (l ++ [c])) =
        (match c with
         | .throwable => ProjMode.throwing
         | .withResult => ProjMode.taggedResult)) ∧
    projMode (applyModeCalls (initProjFlags none) []) = ProjMode.pair := by
  refine ⟨?_, rfl⟩
  intro f l c
  rw [applyModeCalls, List.foldl_append]
  cases c <;> rfl

theorem C7_mode_last_call_wins_witness :
    projMode (applyModeCalls (initProjFlags none) [ModeCall.withResult, ModeCall.throwable]) =
      ProjMode.throwing ∧
    projMode (applyModeCalls (initProjFlags none) []) = ProjMode.pair :=
  ⟨C7_mode_last_call_wins.1 (initProjFlags none) [ModeCall.withResult] ModeCall.throwable,
   C7_mode_last_call_wins.2⟩

/-- C10: `catchError` on a failed Result with a matching tag invokes the
callback and returns `ok(null)`; on an ok Result or a non-matching tag it
returns the input unchanged without invoking the callback; `catchAllErrors`
always returns the original Result, invoking its callback exactly on
failures. -/
theorem C10_catchError_catchAllErrors (T E U : Type) (tagOf : E → String) (tag : String) :
    (∀ e : E, tagOf e = tag → catchError (T := T) (.err e) tag tagOf = (.ok none, true)) ∧
    (∀ e : E, tagOf e ≠ tag → catchError (T := T) (.err e) tag tagOf = (.err e, false)) ∧
    (∀ v : Option T, catchError (.ok v) tag tagOf = (.ok v, false)) ∧
    (∀ r : Result U E, catchAllErrors r = (r, isErr r)) := by
  refine ⟨fun e he => ?_, fun e he => ?_, fun v => rfl, fun r => ?_⟩
  · simp [catchError, he]
  · simp [catchError, he]
  · cases r <;> rfl

theorem C10_catchError_catchAllErrors_witness :
    catchError (T := Nat) (Result.err "timeout") "timeout" id = (Result.ok none, true) ∧
    catchAllErrors (Result.err (T := Nat) "offline") = (Result.err "offline", true) := by
  refine ⟨(C10_catchError_catchAllErrors Nat String Nat id "timeout").1 "timeout" rfl, ?_⟩
  have h := (C10_catchError_catchAllErrors Nat String Nat id "timeout").2.2.2
    (Result.err (T := Nat) "offline")
  simpa [isErr, isOk] using h

/-- C4: under the JSON decode strategy, a response whose body fails JSON
decoding on the first attempt ends the execution immediately with the
`jsonParseError` CustomError: exactly one transport call, no retry, no
error-handler dispatch — whatever retry policy and trigger set are
configured. -/
theorem C4_decode_failure_bypasses_retry (Val Issue : Type) (cfg : EngineCfg Val Issue)
    (oracle : Nat → FetchOutcome Val) (s : Nat) (msg : String)
    (hbody : cfg.bodySchemaIssues = [])
    (_hjson : cfg.isJson = true)
    (hN : 1 ≤ sanitisedRetries cfg.retry.retries)
    (h1 : oracle 1 = .res s (.error msg)) :
    makeRequest cfg oracle = (.err (.custom "jsonParseError" (.jsonMsg msg)), ⟨1, 0, 0⟩) := by
  obtain ⟨g, hg⟩ : ∃ g, (sanitisedRetries cfg.retry.retries).toNat = g + 1 :=
    ⟨(sanitisedRetries cfg.retry.retries).toNat - 1, by omega⟩
  simp [makeRequest, hbody, hg, loop, h1, finish]

theorem C4_decode_failure_bypasses_retry_witness :
    @makeRequest Nat Nat
      { handlers := fun _ => none,
        retry := { retries := some 3, retryDelayIsFn := false, retryOn := some [500],
                   retryWhile := none, onRetry := true },
        schema := none, bodySchemaIssues := [], isJson := true }
      (fun _ => FetchOutcome.res 200 (.error "bad json")) =
    (.err (.custom "jsonParseError" (.jsonMsg "bad json")), ⟨1, 0, 0⟩) :=
  C4_decode_failure_bypasses_retry Nat Nat _ _ 200 "bad json" rfl rfl (by decide) rfl

/-- C5: a request whose body was rejected by the pre-registered body schema
(`bodyJson` stored a non-empty issue list) makes zero transport calls and
returns the `parseError` CustomError carrying the validator's issues. -/
theorem C5_body_schema_short_circuit (Val Issue : Type) (cfg : EngineCfg Val Issue)
    (oracle : Nat → FetchOutcome Val)
    (bschema : Val → Except (List Issue) Val) (body : Val) (issues : List Issue)
    (hval : bschema body = .error issues)
    (hne : issues ≠ [])
    (hcfg : cfg.bodySchemaIssues = bodyJsonIssues (some bschema) body) :
    makeRequest cfg oracle = (.err (.custom "parseError" (.issues issues)), ⟨0, 0, 0⟩) := by
  have hbody : cfg.bodySchemaIssues = issues := by
    simp [hcfg, bodyJsonIssues, hval]
  have hempty : issues.isEmpty = false := by
    cases issues with
    | nil => exact absurd rfl hne
    | cons a l => rfl
  simp [makeRequest, hbody, hempty]

theorem C5_body_schema_short_circuit_witness :
    @makeRequest Nat Nat
      { handlers := fun _ => none,
        retry := { retries := some 3, retryDelayIsFn := false, retryOn := some [500],
                   retryWhile := none, onRetry := true },
        schema := none, bodySchemaIssues := [(1 : Nat)], isJson := true }
      (fun _ => FetchOutcome.res 200 (.ok (0 : Nat))) =
    (.err (.custom "parseError" (.issues [1])), ⟨0, 0, 0⟩) :=
  C5_body_schema_short_circuit Nat Nat _ _
    (fun n => if n = 0 then .error [1] else .ok n) 0 [1] rfl (by decide) rfl

/-- C1 counterexample: retries = 1, status 500 always returned and in the
trigger set, no handler — the code performs 1 transport call but fires the
onRetry hook once, not N − 1 = 0 times. -/
theorem C1_counterexample :
    @makeRequest Nat Nat
      { handlers := fun _ => none,
        retry := { retries := some 1, retryDelayIsFn := false, retryOn := some [500],
                   retryWhile := none, onRetry := true },
        schema := none, bodySchemaIssues := [], isJson := false }
      (fun _ => FetchOutcome.res 500 (.ok (0 : Nat))) =
    (.err (.aspi 500 (some "INTERNAL_SERVER_ERROR")), ⟨1, 1, 0⟩) ∧ (1 : Nat) ≠ 1 - 1 :=
  ⟨rfl, by decide⟩

/-- C2 counterexample: a transport exception on the final allowed attempt
with a handler registered for status 500 yields that handler's CustomError,
not an AspiError. -/
theorem C2_counterexample :
    @makeRequest Nat Nat
      { handlers := fun s => if s = 500 then some ⟨"serverDown", fun _ => (7 : Nat)⟩ else none,
        retry := { retries := some 1, retryDelayIsFn := false, retryOn := none,
                   retryWhile := none, onRetry := false },
        schema := none, bodySchemaIssues := [], isJson := false }
      (fun _ => FetchOutcome.exn none) =
    (.err (.custom "serverDown" (.val 7)), ⟨1, 0, 1⟩) ∧
    ∀ (s : Nat) (l : Option String),
      (RunError.custom "serverDown" (ErrData.val (7 : Nat)) : RunError Nat Nat) ≠ .aspi s l :=
  ⟨rfl, fun _ _ h => RunError.noConfusion h⟩

/-- C3 counterexample: a terminal 404 response whose body fails JSON decoding,
with a handler registered for 404, produces the `jsonParseError` CustomError —
not the handler's tag — and the handler is invoked zero times, not once. -/
theorem C3_counterexample :
    @makeRequest Nat Nat
      { handlers := fun s => if s = 404 then some ⟨"notFoundError", fun _ => (5 : Nat)⟩ else none,
        retry := { retries := some 1, retryDelayIsFn := false, retryOn := none,
                   retryWhile := none, onRetry := false },
        schema := none, bodySchemaIssues := [], isJson := true }
      (fun _ => FetchOutcome.res 404 (.error "Unexpected token")) =
    (.err (.custom "jsonParseError" (.jsonMsg "Unexpected token")), ⟨1, 0, 0⟩) ∧
    "jsonParseError" ≠ "notFoundError" :=
  ⟨rfl, by decide⟩

/-- C9 counterexample: a configured `retries: -1` is truthy, passes through
`#sanitisedRetryConfig` unchanged, and the execution reaches the loop but
performs zero transport calls (the loop body never runs and `response!.ok`
throws into the outer catch). -/
theorem C9_counterexample :
    sanitisedRetries (some (-1)) = -1 ∧
    @makeRequest Nat Nat
      { handlers := fun _ => none,
        retry := { retries := some (-1), retryDelayIsFn := false, retryOn := none,
                   retryWhile := none, onRetry := false },
        schema := none, bodySchemaIssues := [], isJson := false }
      (fun _ => FetchOutcome.res 200 (.ok (0 : Nat))) =
    (.err (.aspi 500 (some "INTERNAL_SERVER_ERROR")), ⟨0, 0, 0⟩) :=
  ⟨rfl, rfl⟩

end Aspi
